import Mathlib

/-!
Shallow embedding of the Live Code Experiment MCP server
(`src/mcp-server/src/index.ts`): the string heuristics used by the
complexity analyzer, pattern detector and benchmark simulator, and the
tool-dispatch / error-wrapping logic of the `CallToolRequestSchema`
handler.  JavaScript numbers are modelled as exact rationals (ℚ), the
single `Math.random()` draw per variant is an injected parameter, and
JavaScript strings are Lean `String`s scanned as `List Char`.
-/

/-! ## JavaScript string primitives -/

/-- The character class matched by `\s` in a JavaScript regular expression:
tab, line feed, vertical tab, form feed, carriage return, space, NBSP,
the Unicode `Zs` separators, the line/paragraph separators and the BOM. -/
def isJsSpace (c : Char) : Bool :=
  let n := c.toNat
  n = 9 || n = 10 || n = 11 || n = 12 || n = 13 || n = 32 ||
  n = 160 || n = 0x1680 || (0x2000 ≤ n && n ≤ 0x200A) ||
  n = 0x2028 || n = 0x2029 || n = 0x202F || n = 0x205F || n = 0x3000 ||
  n = 0xFEFF

/-- `startsWithList needle l` holds when `needle` is an initial segment of `l`. -/
def startsWithList : List Char → List Char → Bool
  | [], _ => true
  | _ :: _, [] => false
  | n :: ns, h :: hs => n == h && startsWithList ns hs

/-- Substring containment on character lists (`String.prototype.includes`). -/
def containsSubList (needle : List Char) : List Char → Bool
  | [] => needle.isEmpty
  | c :: rest => startsWithList needle (c :: rest) || containsSubList needle rest

/-- `code.includes(needle)` of JavaScript. -/
def jsIncludes (code needle : String) : Bool :=
  containsSubList needle.data code.data

/-! ## The two loop-header regular expressions

`index.ts` counts loops with `code.match(/for\s*\(|while\s*\(/g)` and nested
loops with `code.match(/for\s*\([^}]*for\s*\(/g)`.  Both are embedded as
explicit scanners with the exact JavaScript semantics: leftmost match,
first alternative preferred, `\s*` and `[^}]*` greedy with backtracking,
and the global scan resuming right after each match. -/

/-- Match `\s*\(` at the head of the list (`\s*` greedy; since `\s` never
matches `(` the greedy match is deterministic): skip JS whitespace, then
require a literal `(`.  Returns the remainder after the `(`. -/
def matchSpacesThenParen : List Char → Option (List Char)
  | [] => none
  | c :: rest =>
    if c = '(' then some rest
    else if isJsSpace c then matchSpacesThenParen rest
    else none

/-- Match `for\s*\(` at the head of the list; returns the remainder. -/
def matchForHeader : List Char → Option (List Char)
  | 'f' :: 'o' :: 'r' :: rest => matchSpacesThenParen rest
  | _ => none

/-- Match `while\s*\(` at the head of the list; returns the remainder. -/
def matchWhileHeader : List Char → Option (List Char)
  | 'w' :: 'h' :: 'i' :: 'l' :: 'e' :: rest => matchSpacesThenParen rest
  | _ => none

/-- Global scan for `/for\s*\(|while\s*\(/g`: at each position try the first
alternative, then the second, else advance one character; on a match resume
after it.  `fuel` only bounds the number of scan steps: every step consumes
at least one character, so `fuel = l.length` never runs out before the list
is exhausted. -/
def countLoopHeadersFuel : Nat → List Char → Nat
  | 0, _ => 0
  | _ + 1, [] => 0
  | fuel + 1, c :: rest =>
    match matchForHeader (c :: rest) with
    | some r => 1 + countLoopHeadersFuel fuel r
    | none =>
      match matchWhileHeader (c :: rest) with
      | some r => 1 + countLoopHeadersFuel fuel r
      | none => countLoopHeadersFuel fuel rest

/-- `(code.match(/for\s*\(|while\s*\(/g) || []).length`. -/
def countLoopHeaders (code : String) : Nat :=
  countLoopHeadersFuel code.data.length code.data

/-- Greedy `[^}]*for\s*\(`: among the offsets `j` such that every character
before `j` differs from `}` and `for\s*\(` matches at `j`, the greedy
backtracking of `[^}]*` picks the largest such `j`.  Walking the list, a
match found deeper in the non-`}` run wins over a match at the current
position; a `}` stops the run (offset 0 at a `}` cannot match `for` anyway). -/
def lastForHeaderInRun : List Char → Option (List Char)
  | [] => none
  | c :: rest =>
    let deeper := if c = '}' then none else lastForHeaderInRun rest
    match deeper with
    | some r => some r
    | none => matchForHeader (c :: rest)

/-- Match the whole nested-loop regex `for\s*\([^}]*for\s*\(` at the head of
the list; returns the remainder after the second `(`. -/
def matchNestedHeader (l : List Char) : Option (List Char) :=
  match matchForHeader l with
  | none => none
  | some r => lastForHeaderInRun r

/-- Global scan for `/for\s*\([^}]*for\s*\(/g`, same stepping discipline as
`countLoopHeadersFuel`. -/
def countNestedLoopsFuel : Nat → List Char → Nat
  | 0, _ => 0
  | _ + 1, [] => 0
  | fuel + 1, c :: rest =>
    match matchNestedHeader (c :: rest) with
    | some r => 1 + countNestedLoopsFuel fuel r
    | none => countNestedLoopsFuel fuel rest

/-- `(code.match(/for\s*\([^}]*for\s*\(/g) || []).length`. -/
def countNestedLoops (code : String) : Nat :=
  countNestedLoopsFuel code.data.length code.data

/-! ## Complexity Analyzer (`performComplexityAnalysis`, lines 475–494) -/

structure ComplexityResult where
  time_complexity : String
  space_complexity : String
  loop_count : Nat
  nested_loops : Nat
  recursive_calls : Nat
  complexity_score : Nat
deriving DecidableEq

/-- `performComplexityAnalysis(code, language)` of `index.ts`. -/
def performComplexityAnalysis (code : String) : ComplexityResult :=
  let loopCount := countLoopHeaders code
  let nestedLoops := countNestedLoops code
  let recursiveCall := if jsIncludes code "return" && jsIncludes code "(" then 1 else 0
  let timeComplexity :=
    if nestedLoops > 0 then "O(n²)"
    else if loopCount > 0 then "O(n)"
    else if recursiveCall > 0 then "O(n)"
    else "O(1)"
  { time_complexity := timeComplexity
    space_complexity := if nestedLoops > 0 then "O(n)" else "O(1)"
    loop_count := loopCount
    nested_loops := nestedLoops
    recursive_calls := recursiveCall
    complexity_score := loopCount + nestedLoops * 2 + recursiveCall }

/-- `estimateComplexity(code)` of `index.ts` (lines 569–573): the benchmark
simulator's internal scorer, `1 + loopCount + nestedLoops * 2`. -/
def estimateComplexity (code : String) : Nat :=
  let loopCount := countLoopHeaders code
  let nestedLoops := countNestedLoops code
  1 + loopCount + nestedLoops * 2

/-! ## Pattern Detector (`assessPatternApplicability`, lines 575–607, and
`detectOptimizationPatterns`, lines 328–342) -/

structure PatternApplicability where
  score : ℚ
  difficulty : String
  estimatedImprovement : ℚ
  indicators : List String
  hint : String
deriving DecidableEq

/-- `assessPatternApplicability(code, pattern, language)` of `index.ts`.
The `language` argument is unused by the source as well. -/
def assessPatternApplicability (code pattern language : String) :
    PatternApplicability :=
  match pattern with
  | "dynamic_programming" =>
    let hasRecursion := jsIncludes code "return" && jsIncludes code "("
    let hasOverlapping := jsIncludes code "memo" || hasRecursion
    { score := if hasOverlapping then 0.8 else 0.2
      difficulty := "medium"
      estimatedImprovement := 40
      indicators :=
        if hasOverlapping then ["recursion", "overlapping_subproblems"] else []
      hint := "Look for overlapping subproblems and optimal substructure" }
  | "caching" =>
    let hasLookups := jsIncludes code "find" || jsIncludes code "indexOf"
    { score := if hasLookups then 0.9 else 0.3
      difficulty := "low"
      estimatedImprovement := 60
      indicators := if hasLookups then ["repeated_lookups"] else []
      hint := "Cache frequently accessed data" }
  | _ =>
    { score := 0.5
      difficulty := "medium"
      estimatedImprovement := 25
      indicators := []
      hint := "Pattern analysis available" }

structure PatternResult where
  pattern_name : String
  applicability_score : ℚ
  implementation_difficulty : String
  estimated_improvement : ℚ
  code_indicators : List String
  implementation_hint : String
deriving DecidableEq

/-- Default for the `pattern_types` argument (line 329). -/
def defaultPatternTypes : List String :=
  ["dynamic_programming", "caching", "two_pointers", "sliding_window", "hash_maps"]

/-- The `detected_patterns` list built by `detectOptimizationPatterns`
(lines 331–342): map each requested pattern through
`assessPatternApplicability`, then keep only scores `> 0.3`. -/
def detectOptimizationPatterns (code_snippet language : String)
    (pattern_types : List String) : List PatternResult :=
  (pattern_types.map (fun pattern =>
    let applicability := assessPatternApplicability code_snippet pattern language
    { pattern_name := pattern
      applicability_score := applicability.score
      implementation_difficulty := applicability.difficulty
      estimated_improvement := applicability.estimatedImprovement
      code_indicators := applicability.indicators
      implementation_hint := applicability.hint })).filter
    (fun p => p.applicability_score > 0.3)

/-! ## Protocol errors and the tool dispatcher (lines 214–246) -/

inductive ErrorCode where
  | MethodNotFound
  | InternalError
deriving DecidableEq

/-- `McpError` of the MCP SDK, restricted to the two codes this server uses. -/
structure McpError where
  code : ErrorCode
  message : String
deriving DecidableEq

/-- A JavaScript exception as seen by the dispatcher's `catch` block: either
an `McpError`, or any other thrown value with its derived message
(`error instanceof Error ? error.message : String(error)`). -/
inductive JsError where
  | mcp (e : McpError)
  | other (message : String)
deriving DecidableEq

/-- `Array.prototype.reduce` without an initial value: throws a `TypeError`
on an empty array, otherwise folds left starting from the first element. -/
def jsReduce {α : Type} (f : α → α → α) : List α → Except JsError α
  | [] => Except.error (JsError.other "Reduce of empty array with no initial value")
  | x :: xs => Except.ok (xs.foldl f x)

/-- The five tool names of the `CallToolRequestSchema` switch (lines 218–235),
which are also exactly the names registered by the `ListToolsRequestSchema`
handler (lines 71–211). -/
inductive ToolName where
  | analyzeCodeComplexity
  | benchmarkPerformanceTool
  | detectOptimizationPatternsTool
  | generateTestCases
  | createOptimizationReport
deriving DecidableEq

/-- The registry's tool names, in registration order. -/
def registryToolNames : List String :=
  ["analyze_code_complexity", "benchmark_performance",
   "detect_optimization_patterns", "generate_test_cases",
   "create_optimization_report"]

/-- The case discrimination performed by the `switch (name)` of the
`CallToolRequestSchema` handler; `none` is its `default` arm. -/
def parseToolName (name : String) : Option ToolName :=
  if name = "analyze_code_complexity" then some ToolName.analyzeCodeComplexity
  else if name = "benchmark_performance" then some ToolName.benchmarkPerformanceTool
  else if name = "detect_optimization_patterns" then
    some ToolName.detectOptimizationPatternsTool
  else if name = "generate_test_cases" then some ToolName.generateTestCases
  else if name = "create_optimization_report" then
    some ToolName.createOptimizationReport
  else none

/-- The `catch` block of the dispatcher (lines 237–245): an `McpError` is
rethrown unchanged, anything else is wrapped as an `InternalError` whose
message embeds the thrown error's message. -/
def wrapToolError {ρ : Type} (name : String) :
    Except JsError ρ → Except McpError ρ
  | Except.ok r => Except.ok r
  | Except.error (JsError.mcp e) => Except.error e
  | Except.error (JsError.other msg) =>
    Except.error
      { code := ErrorCode.InternalError
        message := "Error executing tool " ++ name ++ ": " ++ msg }

/-- Outcome of one `CallToolRequestSchema` dispatch: which handler (if any)
the switch invoked, and the response or protocol error returned. -/
structure CallResult (ρ : Type) where
  invokedHandler : Option ToolName
  response : Except McpError ρ

/-- The `CallToolRequestSchema` handler (lines 214–246), with the five
handler bodies abstracted as `handlers`: the switch routes a recognized name
to its handler and the `default` arm throws
`McpError(MethodNotFound, "Tool {name} not found")`; the surrounding
`try`/`catch` is `wrapToolError`. -/
def callToolRequest {ρ : Type} (handlers : ToolName → Except JsError ρ)
    (name : String) : CallResult ρ :=
  match parseToolName name with
  | some t => { invokedHandler := some t, response := wrapToolError name (handlers t) }
  | none =>
    { invokedHandler := none
      response := wrapToolError name (Except.error (JsError.mcp
        { code := ErrorCode.MethodNotFound
          message := "Tool " ++ name ++ " not found" })) }

/-! ## Benchmark Simulator (`benchmarkPerformance`, lines 277–326) -/

structure CodeVariant where
  name : String
  code : String
  description : String
deriving DecidableEq

structure BenchmarkEntry where
  variant_name : String
  variant_description : String
  execution_time_ms : ℚ
  memory_usage_mb : ℚ
  improvement_percentage : ℚ
  complexity_score : ℚ
  test_iterations : Nat
deriving DecidableEq

/-- The per-variant body of the `optimized_variants.map` (lines 281–299);
`rand` is the value of the variant's single `Math.random()` draw. -/
def benchmarkEntry (original_code : String) (test_iterations : Nat)
    (rand : ℚ) (variant : CodeVariant) : BenchmarkEntry :=
  let baselineComplexity : ℚ := (estimateComplexity original_code : ℚ)
  let variantComplexity : ℚ := (estimateComplexity variant.code : ℚ)
  let improvementFactor := baselineComplexity / max variantComplexity 0.1
  let simulatedExecutionTime := (1 / improvementFactor) * (0.8 + rand * 0.4)
  let memoryImprovement := max 0 ((improvementFactor - 1) * 30)
  { variant_name := variant.name
    variant_description := variant.description
    execution_time_ms := simulatedExecutionTime
    memory_usage_mb := max 0.5 (10 - memoryImprovement)
    improvement_percentage := max (-20) ((1 - simulatedExecutionTime) * 100)
    complexity_score := variantComplexity
    test_iterations := test_iterations }

structure BenchmarkReport where
  original_code_complexity : Nat
  variant_results : List BenchmarkEntry
  best_variant : BenchmarkEntry
  total_variants_tested : Nat
  average_improvement : ℚ
  best_improvement : ℚ
deriving DecidableEq

/-- `benchmarkPerformance(request)` of `index.ts` (lines 277–326): build the
per-variant results (the i-th variant consuming the i-th `Math.random()`
draw `rand i`), then select the best variant with an initial-value-free
`reduce` — which throws on an empty variant list, making the whole call
fail.  The thrown error escapes to the dispatcher's `catch`. -/
def benchmarkPerformance (original_code : String)
    (optimized_variants : List CodeVariant) (test_iterations : Nat)
    (rand : Nat → ℚ) : Except JsError BenchmarkReport :=
  let benchmarkResults := optimized_variants.enum.map
    (fun p => benchmarkEntry original_code test_iterations (rand p.1) p.2)
  match jsReduce
      (fun best current =>
        if current.improvement_percentage > best.improvement_percentage
        then current else best)
      benchmarkResults with
  | Except.error e => Except.error e
  | Except.ok bestVariant =>
    Except.ok
      { original_code_complexity := estimateComplexity original_code
        variant_results := benchmarkResults
        best_variant := bestVariant
        total_variants_tested := optimized_variants.length
        average_improvement :=
          (benchmarkResults.map (fun r => r.improvement_percentage)).sum /
            (benchmarkResults.length : ℚ)
        best_improvement := bestVariant.improvement_percentage }

/-! ## Helper lemmas -/

/-- The benchmark scorer is `1 + loops + 2 * nested`, hence at least 1. -/
theorem one_le_estimateComplexity (code : String) : 1 ≤ estimateComplexity code := by
  show 1 ≤ 1 + countLoopHeaders code + countNestedLoops code * 2
  omega

/-- Claim C1: invoking the dispatcher with a tool name outside the registry's
five recognized names fails with `MethodNotFound("Tool {name} not found")`
and invokes no handler. -/
theorem unknown_tool_yields_methodNotFound {ρ : Type}
    (handlers : ToolName → Except JsError ρ) (name : String)
    (h : name ∉ registryToolNames) :
    (callToolRequest handlers name).invokedHandler = none ∧
    (callToolRequest handlers name).response =
      Except.error { code := ErrorCode.MethodNotFound
                     message := "Tool " ++ name ++ " not found" } := by
  have hp : parseToolName name = none := by
    unfold parseToolName
    split_ifs <;> simp_all [registryToolNames]
  constructor <;> simp [callToolRequest, hp, wrapToolError]

theorem unknown_tool_yields_methodNotFound_witness :
    (callToolRequest (fun _ => (Except.ok () : Except JsError Unit))
        "no_such_tool").invokedHandler = none ∧
    (callToolRequest (fun _ => (Except.ok () : Except JsError Unit))
        "no_such_tool").response =
      Except.error { code := ErrorCode.MethodNotFound
                     message := "Tool no_such_tool not found" } :=
  unknown_tool_yields_methodNotFound (fun _ => Except.ok ()) "no_such_tool"
    (by decide)

/-- Claim C2: for a recognized tool, a handler exception that is not an
`McpError` surfaces as `InternalError` whose message carries the original
error's message, while a handler-raised `McpError` propagates unchanged. -/
theorem handler_error_wrapping {ρ : Type}
    (handlers : ToolName → Except JsError ρ) (name : String) (t : ToolName)
    (h : parseToolName name = some t) :
    (∀ msg, handlers t = Except.error (JsError.other msg) →
      (callToolRequest handlers name).response =
        Except.error { code := ErrorCode.InternalError
                       message := "Error executing tool " ++ name ++ ": " ++ msg }) ∧
    (∀ e, handlers t = Except.error (JsError.mcp e) →
      (callToolRequest handlers name).response = Except.error e) := by
  constructor
  · intro msg hm
    simp [callToolRequest, h, wrapToolError, hm]
  · intro e he
    simp [callToolRequest, h, wrapToolError, he]

theorem handler_error_wrapping_witness :
    (callToolRequest
        (fun _ => (Except.error (JsError.other "boom") : Except JsError Unit))
        "benchmark_performance").response =
      Except.error { code := ErrorCode.InternalError
                     message := "Error executing tool benchmark_performance: boom" } :=
  (handler_error_wrapping (fun _ => Except.error (JsError.other "boom"))
    "benchmark_performance" ToolName.benchmarkPerformanceTool (by decide)).1
    "boom" rfl

/-- Claim C3: the complexity analyzer's `complexity_score` is
`loop_count + 2*nested_loops + recursive_calls`, `time_complexity` follows
the priority order nested → loops → recursion → `O(1)`, `space_complexity`
is `O(n)` exactly when a nested loop was counted, and a string with zero
indicators scores 0 with classification `O(1)`. -/
theorem complexity_analysis_fields (code : String) :
    (performComplexityAnalysis code).complexity_score =
        (performComplexityAnalysis code).loop_count +
          2 * (performComplexityAnalysis code).nested_loops +
          (performComplexityAnalysis code).recursive_calls ∧
    (performComplexityAnalysis code).time_complexity =
        (if (performComplexityAnalysis code).nested_loops > 0 then "O(n²)"
         else if (performComplexityAnalysis code).loop_count > 0 then "O(n)"
         else if (performComplexityAnalysis code).recursive_calls > 0 then "O(n)"
         else "O(1)") ∧
    ((performComplexityAnalysis code).space_complexity = "O(n)" ↔
        (performComplexityAnalysis code).nested_loops > 0) ∧
    ((performComplexityAnalysis code).loop_count = 0 ∧
        (performComplexityAnalysis code).nested_loops = 0 ∧
        (performComplexityAnalysis code).recursive_calls = 0 →
      (performComplexityAnalysis code).complexity_score = 0 ∧
      (performComplexityAnalysis code).time_complexity = "O(1)") := by
  refine ⟨?_, ?_, ?_, ?_⟩
  · simp only [performComplexityAnalysis]
    ring
  · simp only [performComplexityAnalysis]
  · simp only [performComplexityAnalysis]
    split_ifs with hn
    · simp [hn]
    · constructor
      · intro habs
        exact absurd habs (by decide)
      · intro habs
        exact absurd habs hn
  · simp only [performComplexityAnalysis]
    rintro ⟨h1, h2, h3⟩
    constructor
    · omega
    · have hrc : (jsIncludes code "return" && jsIncludes code "(") = false := by
        by_cases hb : (jsIncludes code "return" && jsIncludes code "(") = true
        · simp [hb] at h3
        · simpa using hb
      simp [h1, h2, hrc]

theorem complexity_analysis_fields_witness :
    (performComplexityAnalysis "let y = 1;").complexity_score = 0 ∧
    (performComplexityAnalysis "let y = 1;").time_complexity = "O(1)" :=
  (complexity_analysis_fields "let y = 1;").2.2.2 (by decide)

/-- Claim C4 counterexample: on `"return fib(n-1)"` the dynamic-programming
score is 0.8 although the snippet has no memo-like token, so the score is not
0.8 exactly when the recursion proxy AND a memo token are both present — the
source combines the memo token and the recursion proxy with OR, not AND. -/
theorem dp_claim_counterexample :
    ¬ (((assessPatternApplicability "return fib(n-1)" "dynamic_programming"
            "javascript").score = 0.8) ↔
        (jsIncludes "return fib(n-1)" "return" &&
         jsIncludes "return fib(n-1)" "(" &&
         jsIncludes "return fib(n-1)" "memo") = true) := by
  intro h
  have hall : (jsIncludes "return fib(n-1)" "return" &&
      jsIncludes "return fib(n-1)" "(" &&
      jsIncludes "return fib(n-1)" "memo") = true := h.mp rfl
  exact absurd hall (by decide)

/-- Claim C4 (amended): the dynamic-programming pattern scores 0.8 if and
only if the snippet contains a memo-like token OR shows the return-with-call
recursion proxy, and 0.2 otherwise. -/
theorem dp_score_amended (code language : String) :
    (assessPatternApplicability code "dynamic_programming" language).score =
      (if jsIncludes code "memo" ||
          (jsIncludes code "return" && jsIncludes code "(")
       then (0.8 : ℚ) else 0.2) := rfl

/-- Claim C5 counterexample: on the string `"x"` the benchmark's internal
scorer gives 1 while the complexity analyzer's `complexity_score` gives 0,
so the two scorers are not the same function. -/
theorem benchmark_scorer_counterexample :
    estimateComplexity "x" ≠ (performComplexityAnalysis "x").complexity_score := by
  decide

/-- Claim C5 (amended): the benchmark's internal scorer computes
`1 + loop_count + 2*nested_loops` from the same loop counts as the analyzer;
it omits the analyzer's recursive-call term and adds a constant 1, so it
differs from the analyzer's `complexity_score` in general. -/
theorem benchmark_scorer_amended (code : String) :
    estimateComplexity code =
      1 + (performComplexityAnalysis code).loop_count +
        2 * (performComplexityAnalysis code).nested_loops := by
  simp only [estimateComplexity, performComplexityAnalysis]
  ring

/-- Claim C6: `benchmark_performance` with an empty variant list fails: the
initial-value-free `reduce` throws on the empty results array, and the
dispatcher's `catch` surfaces it to the caller as an `InternalError` rather
than returning a report with an undefined best variant. -/
theorem benchmark_empty_variants_fails (original_code : String)
    (test_iterations : Nat) (rand : Nat → ℚ) :
    benchmarkPerformance original_code [] test_iterations rand =
      Except.error (JsError.other "Reduce of empty array with no initial value") ∧
    wrapToolError "benchmark_performance"
        (benchmarkPerformance original_code [] test_iterations rand) =
      Except.error { code := ErrorCode.InternalError
                     message := "Error executing tool benchmark_performance: Reduce of empty array with no initial value" } := by
  constructor <;> rfl

/-- Claim C7: every pattern result returned in `detected_patterns` has
`applicability_score > 0.3`; the output filter discards everything else. -/
theorem detected_patterns_above_threshold (code_snippet language : String)
    (pattern_types : List String) (p : PatternResult)
    (hp : p ∈ detectOptimizationPatterns code_snippet language pattern_types) :
    p.applicability_score > 0.3 := by
  simp only [detectOptimizationPatterns] at hp
  simpa using (List.mem_filter.mp hp).2

theorem detected_patterns_above_threshold_witness :
    ({ pattern_name := "caching", applicability_score := 0.9,
       implementation_difficulty := "low", estimated_improvement := 60,
       code_indicators := ["repeated_lookups"],
       implementation_hint := "Cache frequently accessed data" } :
        PatternResult).applicability_score > 0.3 :=
  detected_patterns_above_threshold "arr.indexOf(x)" "javascript" ["caching"]
    _ (List.mem_filter.mpr
        ⟨List.Mem.head _, decide_eq_true (by norm_num)⟩)

/-- Claim C8: benchmarking one variant whose code is textually identical to
the original gives improvement factor exactly 1, execution time
`0.8 + 0.4·U` for the draw `U ∈ [0,1)`, an `improvement_percentage` inside
the jitter band `(-20, 20]`, and that single variant as the best variant. -/
theorem benchmark_identical_variant (c vname vdesc : String) (iters : Nat)
    (rand : Nat → ℚ) (h0 : 0 ≤ rand 0) (h1 : rand 0 < 1) :
    ∃ r : BenchmarkReport,
      benchmarkPerformance c [{ name := vname, code := c, description := vdesc }]
          iters rand = Except.ok r ∧
      r.variant_results = [r.best_variant] ∧
      r.best_variant.variant_name = vname ∧
      (estimateComplexity c : ℚ) / max ((estimateComplexity c : ℚ)) 0.1 = 1 ∧
      r.best_variant.execution_time_ms = 0.8 + 0.4 * rand 0 ∧
      -20 < r.best_variant.improvement_percentage ∧
      r.best_variant.improvement_percentage ≤ 20 := by
  have hb : (1 : ℚ) ≤ (estimateComplexity c : ℚ) := by
    exact_mod_cast one_le_estimateComplexity c
  have hmax : max ((estimateComplexity c : ℚ)) 0.1 = (estimateComplexity c : ℚ) := by
    apply max_eq_left
    norm_num
    linarith
  have hfac : (estimateComplexity c : ℚ) / max ((estimateComplexity c : ℚ)) 0.1 = 1 := by
    rw [hmax]
    exact div_self (by linarith)
  refine ⟨_, rfl, rfl, rfl, hfac, ?_, ?_, ?_⟩
  · show (benchmarkEntry c iters (rand 0)
        { name := vname, code := c, description := vdesc }).execution_time_ms =
      0.8 + 0.4 * rand 0
    simp only [benchmarkEntry]
    rw [hfac]
    ring
  · show -20 < (benchmarkEntry c iters (rand 0)
        { name := vname, code := c, description := vdesc }).improvement_percentage
    simp only [benchmarkEntry]
    rw [hfac]
    have hval : ((1 : ℚ) - 1 / 1 * (0.8 + rand 0 * 0.4)) * 100 = 20 - 40 * rand 0 := by
      ring
    rw [hval]
    exact lt_max_of_lt_right (by linarith)
  · show (benchmarkEntry c iters (rand 0)
        { name := vname, code := c, description := vdesc }).improvement_percentage ≤ 20
    simp only [benchmarkEntry]
    rw [hfac]
    have hval : ((1 : ℚ) - 1 / 1 * (0.8 + rand 0 * 0.4)) * 100 = 20 - 40 * rand 0 := by
      ring
    rw [hval]
    apply max_le
    · norm_num
    · linarith

theorem benchmark_identical_variant_witness :
    ∃ r : BenchmarkReport,
      benchmarkPerformance "x" [{ name := "v", code := "x", description := "d" }]
          1000 (fun _ => 1/2) = Except.ok r ∧
      r.variant_results = [r.best_variant] ∧
      r.best_variant.variant_name = "v" ∧
      (estimateComplexity "x" : ℚ) / max ((estimateComplexity "x" : ℚ)) 0.1 = 1 ∧
      r.best_variant.execution_time_ms = 0.8 + 0.4 * (1/2 : ℚ) ∧
      -20 < r.best_variant.improvement_percentage ∧
      r.best_variant.improvement_percentage ≤ 20 :=
  benchmark_identical_variant "x" "v" "d" 1000 (fun _ => 1/2)
    (by norm_num) (by norm_num)

/-- Claim C9: the benchmark scorer is at least 1, so the `0.1` floor in
`Math.max(variantComplexity, 0.1)` never takes effect and the improvement
factor is a positive quotient for every original/variant pair. -/
theorem estimate_floor_never_hits (original variant : String) :
    1 ≤ estimateComplexity variant ∧
    max ((estimateComplexity variant : ℚ)) 0.1 = (estimateComplexity variant : ℚ) ∧
    0 < (estimateComplexity original : ℚ) /
        max ((estimateComplexity variant : ℚ)) 0.1 := by
  have hv : (1 : ℚ) ≤ (estimateComplexity variant : ℚ) := by
    exact_mod_cast one_le_estimateComplexity variant
  have ho : (1 : ℚ) ≤ (estimateComplexity original : ℚ) := by
    exact_mod_cast one_le_estimateComplexity original
  have hmax : max ((estimateComplexity variant : ℚ)) 0.1 =
      (estimateComplexity variant : ℚ) := by
    apply max_eq_left
    norm_num
    linarith
  refine ⟨one_le_estimateComplexity variant, hmax, ?_⟩
  rw [hmax]
  exact div_pos (by linarith) (by linarith)

/-- Claim C10: for any original, variant and draw `U ∈ [0,1)`, the reported
`improvement_percentage` is clamped below at `-20` and, the simulated
execution time being strictly positive, stays strictly below `100`. -/
theorem improvement_percentage_range (original : String) (v : CodeVariant)
    (iters : Nat) (U : ℚ) (h0 : 0 ≤ U) (h1 : U < 1) :
    -20 ≤ (benchmarkEntry original iters U v).improvement_percentage ∧
    (benchmarkEntry original iters U v).improvement_percentage < 100 := by
  have hb : (1 : ℚ) ≤ (estimateComplexity original : ℚ) := by
    exact_mod_cast one_le_estimateComplexity original
  have hm : (0 : ℚ) < max ((estimateComplexity v.code : ℚ)) 0.1 := by
    have h01 : (0.1 : ℚ) ≤ max ((estimateComplexity v.code : ℚ)) 0.1 :=
      le_max_right _ _
    linarith
  constructor
  · simp only [benchmarkEntry]
    exact le_max_left _ _
  · simp only [benchmarkEntry]
    have hfac : (0 : ℚ) < (estimateComplexity original : ℚ) /
        max ((estimateComplexity v.code : ℚ)) 0.1 :=
      div_pos (by linarith) hm
    have ht : (0 : ℚ) <
        1 / ((estimateComplexity original : ℚ) /
            max ((estimateComplexity v.code : ℚ)) 0.1) * (0.8 + U * 0.4) := by
      apply mul_pos
      · exact one_div_pos.mpr hfac
      · nlinarith
    apply max_lt
    · norm_num
    · nlinarith

theorem improvement_percentage_range_witness :
    -20 ≤ (benchmarkEntry "x" 1000 0
        { name := "n", code := "y", description := "d" }).improvement_percentage ∧
    (benchmarkEntry "x" 1000 0
        { name := "n", code := "y", description := "d" }).improvement_percentage < 100 :=
  improvement_percentage_range "x" { name := "n", code := "y", description := "d" }
    1000 0 (by norm_num) (by norm_num)
